import Mathlib

/-
Shallow embedding of the monitoring engine in src/Arcmonitor.py.

Time is modelled as Nat seconds.  Each background loop is embedded as a
per-tick function: the loop body between two sleeps, taking the value of
the monitoring flag observed under the lock, the current ActivityState,
the relevant database table (a list of rows, appends at the tail), and
oracles for the outcomes of the fallible platform calls (window probe,
screenshot grab/save, OCR, thumbnail encode, video capture/encode).
Python truthiness of the b64_img value (`if b64_img:`) is modelled by
pyTruthy.  Python's `(a - b).total_seconds() < k` / `>= k` / `> k`
comparisons agree with truncated Nat subtraction on every branch the code
takes (a negative difference and a truncated 0 fall on the same side of
each threshold), so Nat subtraction is faithful here.
-/

namespace Arcmonitor

/-- SCREENSHOT_INTERVAL_ACTIVE = 30 from the configuration block. -/
def SCREENSHOT_INTERVAL_ACTIVE : Nat := 30

/-- INACTIVITY_THRESHOLD = 60 from the configuration block. -/
def INACTIVITY_THRESHOLD : Nat := 60

/-- VIDEO_INTERVAL = 1800 from the configuration block. -/
def VIDEO_INTERVAL : Nat := 1800

/-- VIDEO_DURATION = 10 from the configuration block. -/
def VIDEO_DURATION : Nat := 10

/-- OCR_ENABLED = True from the configuration block. -/
def OCR_ENABLED : Bool := true

/-- The mutable per-process state owned by JarvisMonitor: current_window,
last_activity, last_screenshot, last_video. -/
structure ActivityState where
  current_window : String × String
  last_activity : Nat
  last_screenshot : Nat
  last_video : Nat
  deriving DecidableEq

/-- One row of the activities table (INSERT INTO activities ...). -/
structure ActivityRow where
  timestamp : Nat
  window_title : String
  process_name : String
  screenshot : String
  ocr_text : String
  active_session : Bool
  deriving DecidableEq

/-- One row of the metrics table (INSERT INTO metrics ...). -/
structure MetricRow where
  timestamp : Nat
  cpu : Nat
  memory : Nat
  network_sent : Nat
  network_recv : Nat
  deriving DecidableEq

/-- One row of the videos table (INSERT INTO videos ...). -/
structure VideoRow where
  timestamp : Nat
  duration : Nat
  file_path : String
  deriving DecidableEq

/-- Oracle for what the platform sees inside get_active_window's try block:
running on Windows with a successful win32gui query, running on another
platform, or any exception being raised. -/
inductive ProbeOutcome where
  | windows (title : String)
  | nonWindows
  | failure
  deriving DecidableEq

/-- get_active_window: returns (title, "Windows Process") on Windows,
the hardcoded ("Terminal", "bash") elsewhere, and the sentinel
("Unknown", "Unknown") from the bare except. -/
def get_active_window : ProbeOutcome → String × String
  | ProbeOutcome.windows title => (title, "Windows Process")
  | ProbeOutcome.nonWindows => ("Terminal", "bash")
  | ProbeOutcome.failure => ("Unknown", "Unknown")

/-- check_activity: query the probe; if the pair differs from
current_window, store it and reset last_activity to now, returning True;
otherwise leave the state untouched and return False. -/
def check_activity (st : ActivityState) (probe : ProbeOutcome) (now : Nat) :
    ActivityState × Bool :=
  if get_active_window probe ≠ st.current_window then
    ({ st with current_window := get_active_window probe, last_activity := now }, true)
  else
    (st, false)

/-- Oracle for what pytesseract.image_to_string does when called: return a
string, or raise. -/
inductive OcrOutcome where
  | ok (text : String)
  | raised
  deriving DecidableEq

/-- process_ocr: if OCR is enabled, return the stripped pytesseract output,
with any exception downgraded to ""; if disabled, return "". -/
def process_ocr (ocr_enabled : Bool) (o : OcrOutcome) : String :=
  if ocr_enabled then
    match o with
    | OcrOutcome.ok text => text.trim
    | OcrOutcome.raised => ""
  else ""

/-- Oracles for the fallible steps of capture_screenshot: grabbing the
display and saving the full-resolution JPEG (producing the artifact path),
the OCR call, and producing the base64 thumbnail. -/
structure ShotEnv where
  grab_save : Except Unit String
  ocr : OcrOutcome
  thumb : Except Unit String

/-- capture_screenshot: grab and save the artifact, run OCR (which cannot
raise out of process_ocr), thumbnail and base64-encode; return
(path, b64_img, ocr_text).  Any exception in the grab/save or thumbnail
steps hits the except branch, returning (None, None, ""). -/
def capture_screenshot (ocr_enabled : Bool) (e : ShotEnv) :
    Option String × Option String × String :=
  match e.grab_save with
  | Except.error _ => (none, none, "")
  | Except.ok path =>
    match e.thumb with
    | Except.error _ => (none, none, "")
    | Except.ok b64_img => (some path, some b64_img, process_ocr ocr_enabled e.ocr)

/-- Python truthiness of the b64_img component: None and "" are falsy. -/
def pyTruthy : Option String → Bool
  | none => false
  | some s => s != ""

/-- The row inserted by the activity loop: timestamp now, the stored
window identity, the b64 thumbnail blob, the OCR text, and active_session
hard-coded to True. -/
def activity_row (st1 : ActivityState) (shot : ShotEnv) (now : Nat) : ActivityRow :=
  { timestamp := now
    window_title := st1.current_window.1
    process_name := st1.current_window.2
    screenshot := ((capture_screenshot OCR_ENABLED shot).2.1).getD ""
    ocr_text := (capture_screenshot OCR_ENABLED shot).2.2
    active_session := true }

/-- Lines 202-222 of monitor_activities, after check_activity has run:
if inactive_time < INACTIVITY_THRESHOLD and the screenshot interval has
elapsed, capture; if b64_img is truthy, insert the row and set
last_screenshot = now; otherwise fall through with no write. -/
def monitor_activities_body (st1 : ActivityState) (db : List ActivityRow)
    (shot : ShotEnv) (now : Nat) : ActivityState × List ActivityRow :=
  if now - st1.last_activity < INACTIVITY_THRESHOLD then
    if SCREENSHOT_INTERVAL_ACTIVE ≤ now - st1.last_screenshot then
      if pyTruthy (capture_screenshot OCR_ENABLED shot).2.1 then
        ({ st1 with last_screenshot := now }, db ++ [activity_row st1 shot now])
      else (st1, db)
    else (st1, db)
  else (st1, db)

/-- One tick of monitor_activities: if the flag read under the lock is
False, sleep and continue with nothing touched; otherwise run
check_activity and then the capture/insert body. -/
def monitor_activities_tick (enabled : Bool) (st : ActivityState)
    (db : List ActivityRow) (probe : ProbeOutcome) (shot : ShotEnv) (now : Nat) :
    ActivityState × List ActivityRow :=
  if !enabled then (st, db)
  else monitor_activities_body (check_activity st probe now).1 db shot now

/-- One tick of monitor_system: if the flag is False, sleep and continue;
otherwise append one metrics row sampled from psutil. -/
def monitor_system_tick (enabled : Bool) (db : List MetricRow) (sample : MetricRow) :
    List MetricRow :=
  if !enabled then db else db ++ [sample]

/-- Oracle for record_video's capture/encode: either every frame was
grabbed and written and the writer released (yielding the artifact path),
or some step raised. -/
inductive VideoOutcome where
  | ok (path : String)
  | raised
  deriving DecidableEq

/-- record_video: on success (all frames written, writer released) insert
the videos row and return the path; on any exception the except branch
returns None with no insert. -/
def record_video (db : List VideoRow) (o : VideoOutcome) (now : Nat) :
    Option String × List VideoRow :=
  match o with
  | VideoOutcome.ok path =>
    (some path, db ++ [{ timestamp := now, duration := VIDEO_DURATION, file_path := path }])
  | VideoOutcome.raised => (none, db)

/-- One tick of monitor_videos: if the flag is False, sleep and continue;
otherwise, when more than VIDEO_INTERVAL has elapsed since last_video,
call record_video and then set last_video = now unconditionally (the
return value of record_video is ignored). -/
def monitor_videos_tick (enabled : Bool) (st : ActivityState) (db : List VideoRow)
    (o : VideoOutcome) (now : Nat) : ActivityState × List VideoRow :=
  if !enabled then (st, db)
  else if VIDEO_INTERVAL < now - st.last_video then
    ({ st with last_video := now }, (record_video db o now).2)
  else (st, db)

/-- Ordering used by the history query: newest (largest timestamp) first. -/
def newestFirst (a b : ActivityRow) : Prop := b.timestamp ≤ a.timestamp

instance : DecidableRel newestFirst := fun a b =>
  inferInstanceAs (Decidable (b.timestamp ≤ a.timestamp))

instance : IsTotal ActivityRow newestFirst :=
  ⟨fun a b => Nat.le_total b.timestamp a.timestamp⟩

instance : IsTrans ActivityRow newestFirst :=
  ⟨fun _ _ _ h1 h2 => Nat.le_trans h2 h1⟩

/-- get_activity_history: SELECT ... FROM activities WHERE active_session = 1
ORDER BY timestamp DESC LIMIT 10, over the table as a list of rows. -/
def get_activity_history (db : List ActivityRow) : List ActivityRow :=
  (List.insertionSort newestFirst (db.filter (fun r => r.active_session))).take 10

/-- The inputs one activity-loop tick consumes: the flag value observed
under the lock, the probe outcome, the capture oracles, and the clock. -/
structure ActTickEnv where
  enabled : Bool
  probe : ProbeOutcome
  shot : ShotEnv
  now : Nat

/-- Iterate the activity loop over a sequence of tick inputs. -/
def monitor_activities_run (st : ActivityState) (db : List ActivityRow) :
    List ActTickEnv → ActivityState × List ActivityRow
  | [] => (st, db)
  | e :: es =>
    monitor_activities_run (monitor_activities_tick e.enabled st db e.probe e.shot e.now).1
      (monitor_activities_tick e.enabled st db e.probe e.shot e.now).2 es

theorem check_activity_last_screenshot (st : ActivityState) (probe : ProbeOutcome)
    (now : Nat) : (check_activity st probe now).1.last_screenshot = st.last_screenshot := by
  unfold check_activity
  split <;> rfl

theorem append_singleton_ne {α : Type} (l : List α) (x : α) : l ++ [x] ≠ l := by
  intro h
  have h2 := congrArg List.length h
  simp at h2

theorem capture_fail_none (shot : ShotEnv)
    (h : shot.grab_save = Except.error () ∨ shot.thumb = Except.error ()) :
    (capture_screenshot OCR_ENABLED shot).2.1 = none := by
  rcases h with h | h
  · simp [capture_screenshot, h]
  · cases hg : shot.grab_save <;> simp [capture_screenshot, hg, h]

theorem monitor_activities_body_skip (st1 : ActivityState) (db : List ActivityRow)
    (shot : ShotEnv) (now : Nat)
    (h : pyTruthy (capture_screenshot OCR_ENABLED shot).2.1 = false) :
    monitor_activities_body st1 db shot now = (st1, db) := by
  unfold monitor_activities_body
  split_ifs <;> simp_all

theorem monitor_activities_tick_all_active (enabled : Bool) (st : ActivityState)
    (db : List ActivityRow) (probe : ProbeOutcome) (shot : ShotEnv) (now : Nat)
    (h : db.all (fun r => r.active_session) = true) :
    ((monitor_activities_tick enabled st db probe shot now).2).all
      (fun r => r.active_session) = true := by
  unfold monitor_activities_tick monitor_activities_body
  split
  · exact h
  · split <;> [skip; exact h]
    split <;> [skip; exact h]
    split
    · simp [List.all_append, h, activity_row]
    · exact h

theorem monitor_activities_run_all_active (envs : List ActTickEnv) :
    ∀ (st : ActivityState) (db : List ActivityRow),
      db.all (fun r => r.active_session) = true →
      ((monitor_activities_run st db envs).2).all (fun r => r.active_session) = true := by
  induction envs with
  | nil => intro st db h; exact h
  | cons e es ih =>
    intro st db h
    unfold monitor_activities_run
    exact ih _ _ (monitor_activities_tick_all_active e.enabled st db e.probe e.shot e.now h)

/-- C1 counterexample: with last_video = 0 and now = 2000 (eligible, since
2000 - 0 > VIDEO_INTERVAL) and a failing recording, the tick writes no row
but sets last_video to 2000, not leaving it at 0 as the claim states. -/
theorem video_failure_counterexample :
    (monitor_videos_tick true ⟨("Terminal", "bash"), 0, 0, 0⟩ []
        VideoOutcome.raised 2000).2 = [] ∧
    (monitor_videos_tick true ⟨("Terminal", "bash"), 0, 0, 0⟩ []
        VideoOutcome.raised 2000).1.last_video = 2000 ∧
    (⟨("Terminal", "bash"), 0, 0, 0⟩ : ActivityState).last_video ≠ 2000 := by
  refine ⟨rfl, rfl, by decide⟩

/-- C1 amended: on an eligible video tick whose recording fails, no
VideoRecord row is written, but last_video is still set to now (the loop
ignores record_video's result), so the next recording attempt happens only
after a further full VIDEO_INTERVAL rather than on the next tick. -/
theorem video_failure_tick (st : ActivityState) (db : List VideoRow) (now : Nat)
    (h : VIDEO_INTERVAL < now - st.last_video) :
    (monitor_videos_tick true st db VideoOutcome.raised now).2 = db ∧
    (monitor_videos_tick true st db VideoOutcome.raised now).1.last_video = now := by
  unfold monitor_videos_tick record_video
  simp [h]

/-- C1 amended witness at last_video = 0, now = 2000, empty table. -/
theorem video_failure_tick_witness :
    (monitor_videos_tick true ⟨("X", "Y"), 5, 5, 0⟩ [⟨1, 10, "old.mp4"⟩]
        VideoOutcome.raised 2000).2 = [⟨1, 10, "old.mp4"⟩] ∧
    (monitor_videos_tick true ⟨("X", "Y"), 5, 5, 0⟩ [⟨1, 10, "old.mp4"⟩]
        VideoOutcome.raised 2000).1.last_video = 2000 :=
  video_failure_tick ⟨("X", "Y"), 5, 5, 0⟩ [⟨1, 10, "old.mp4"⟩] 2000 (by decide)

/-- C2: on an enabled activity tick, a row is appended exactly when the
post-probe inactive time is below INACTIVITY_THRESHOLD, at least
SCREENSHOT_INTERVAL_ACTIVE has elapsed since last_screenshot, and the
capture returned a truthy b64_img; a write sets last_screenshot = now and
appends the hard-coded row; and when the inactive time has reached the
threshold no row is written regardless of the screenshot interval. -/
theorem screenshot_write_iff (st : ActivityState) (db : List ActivityRow)
    (probe : ProbeOutcome) (shot : ShotEnv) (now : Nat) :
    ((monitor_activities_tick true st db probe shot now).2 ≠ db ↔
      (now - (check_activity st probe now).1.last_activity < INACTIVITY_THRESHOLD ∧
        SCREENSHOT_INTERVAL_ACTIVE ≤ now - st.last_screenshot ∧
        pyTruthy (capture_screenshot OCR_ENABLED shot).2.1 = true)) ∧
    ((monitor_activities_tick true st db probe shot now).2 ≠ db →
      (monitor_activities_tick true st db probe shot now).1.last_screenshot = now ∧
      (monitor_activities_tick true st db probe shot now).2
        = db ++ [activity_row (check_activity st probe now).1 shot now]) ∧
    (INACTIVITY_THRESHOLD ≤ now - (check_activity st probe now).1.last_activity →
      (monitor_activities_tick true st db probe shot now).2 = db) := by
  have hls := check_activity_last_screenshot st probe now
  have hstep : monitor_activities_tick true st db probe shot now
      = monitor_activities_body (check_activity st probe now).1 db shot now := rfl
  rw [hstep]
  unfold monitor_activities_body
  rw [hls]
  by_cases h1 : now - (check_activity st probe now).1.last_activity < INACTIVITY_THRESHOLD
  · rw [if_pos h1]
    by_cases h2 : SCREENSHOT_INTERVAL_ACTIVE ≤ now - st.last_screenshot
    · rw [if_pos h2]
      by_cases h3 : pyTruthy (capture_screenshot OCR_ENABLED shot).2.1 = true
      · rw [if_pos h3]
        refine ⟨⟨fun _ => ⟨h1, h2, h3⟩, fun _ => append_singleton_ne db _⟩,
          fun _ => ⟨rfl, rfl⟩, fun hc => absurd h1 (Nat.not_lt.mpr hc)⟩
      · rw [if_neg h3]
        exact ⟨⟨fun hw => absurd rfl hw, fun hc => absurd hc.2.2 h3⟩,
          fun hw => absurd rfl hw, fun _ => rfl⟩
    · rw [if_neg h2]
      exact ⟨⟨fun hw => absurd rfl hw, fun hc => absurd hc.2.1 h2⟩,
        fun hw => absurd rfl hw, fun _ => rfl⟩
  · rw [if_neg h1]
    exact ⟨⟨fun hw => absurd rfl hw, fun hc => absurd hc.1 h1⟩,
      fun hw => absurd rfl hw, fun _ => rfl⟩

/-- C2 witness: an idle tick (last_activity = 0, now = 100, no window
change) writes nothing even though 100 seconds exceed the screenshot
interval. -/
theorem screenshot_write_iff_witness :
    (monitor_activities_tick true ⟨("Terminal", "bash"), 0, 0, 0⟩ []
        ProbeOutcome.nonWindows
        ⟨Except.ok "s.jpg", OcrOutcome.ok "text", Except.ok "B64"⟩ 100).2 = [] :=
  (screenshot_write_iff ⟨("Terminal", "bash"), 0, 0, 0⟩ [] ProbeOutcome.nonWindows
    ⟨Except.ok "s.jpg", OcrOutcome.ok "text", Except.ok "B64"⟩ 100).2.2 (by decide)

/-- C3: check_activity reports a transition exactly when the probed pair
differs from current_window; on a transition it stores the new pair and
sets last_activity = now (leaving the capture timestamps alone), and on an
identical observation the whole state is unchanged. -/
theorem activity_transition_iff (st : ActivityState) (probe : ProbeOutcome) (now : Nat) :
    ((check_activity st probe now).2 = true ↔
      get_active_window probe ≠ st.current_window) ∧
    (get_active_window probe ≠ st.current_window →
      (check_activity st probe now).1.current_window = get_active_window probe ∧
      (check_activity st probe now).1.last_activity = now ∧
      (check_activity st probe now).1.last_screenshot = st.last_screenshot ∧
      (check_activity st probe now).1.last_video = st.last_video) ∧
    (get_active_window probe = st.current_window →
      (check_activity st probe now).1 = st) := by
  unfold check_activity
  by_cases h : get_active_window probe = st.current_window
  · simp [h]
  · simp [h]

/-- C3 witness: a failing probe returns ("Unknown", "Unknown"), which
differs from the stored ("Terminal", "bash"), so the transition fires and
last_activity becomes 5. -/
theorem activity_transition_iff_witness :
    (check_activity ⟨("Terminal", "bash"), 0, 1, 2⟩ ProbeOutcome.failure 5).1.current_window
      = get_active_window ProbeOutcome.failure ∧
    (check_activity ⟨("Terminal", "bash"), 0, 1, 2⟩ ProbeOutcome.failure 5).1.last_activity = 5 ∧
    (check_activity ⟨("Terminal", "bash"), 0, 1, 2⟩ ProbeOutcome.failure 5).1.last_screenshot = 1 ∧
    (check_activity ⟨("Terminal", "bash"), 0, 1, 2⟩ ProbeOutcome.failure 5).1.last_video = 2 :=
  (activity_transition_iff ⟨("Terminal", "bash"), 0, 1, 2⟩ ProbeOutcome.failure 5).2.1
    (by decide)

/-- C4: when the screenshot capture raises (grab/save or thumbnail step),
the enabled activity tick writes no row and leaves last_screenshot
unchanged, so the eligibility conditions still hold at the next tick. -/
theorem capture_failure_no_write (st : ActivityState) (db : List ActivityRow)
    (probe : ProbeOutcome) (shot : ShotEnv) (now : Nat)
    (h : shot.grab_save = Except.error () ∨ shot.thumb = Except.error ()) :
    (monitor_activities_tick true st db probe shot now).2 = db ∧
    (monitor_activities_tick true st db probe shot now).1.last_screenshot
      = st.last_screenshot := by
  have hb : pyTruthy (capture_screenshot OCR_ENABLED shot).2.1 = false := by
    rw [capture_fail_none shot h]; rfl
  have hstep : monitor_activities_tick true st db probe shot now
      = monitor_activities_body (check_activity st probe now).1 db shot now := rfl
  rw [hstep, monitor_activities_body_skip _ _ _ _ hb]
  exact ⟨rfl, check_activity_last_screenshot st probe now⟩

/-- C4 witness: a tick at now = 40 with a failing grab leaves the empty
table empty and last_screenshot at 0. -/
theorem capture_failure_no_write_witness :
    (monitor_activities_tick true ⟨("Terminal", "bash"), 0, 0, 0⟩ []
        ProbeOutcome.nonWindows
        ⟨Except.error (), OcrOutcome.raised, Except.error ()⟩ 40).2 = [] ∧
    (monitor_activities_tick true ⟨("Terminal", "bash"), 0, 0, 0⟩ []
        ProbeOutcome.nonWindows
        ⟨Except.error (), OcrOutcome.raised, Except.error ()⟩ 40).1.last_screenshot = 0 :=
  capture_failure_no_write ⟨("Terminal", "bash"), 0, 0, 0⟩ [] ProbeOutcome.nonWindows
    ⟨Except.error (), OcrOutcome.raised, Except.error ()⟩ 40 (Or.inl rfl)

/-- C5: record_video inserts no videos row when any capture/encode step
raises, inserts exactly one row (after the writer has been released, i.e.
only in the fully-successful outcome) on success, and a changed table
implies the outcome was a completed encode. -/
theorem record_video_row_iff (db : List VideoRow) (now : Nat) :
    (record_video db VideoOutcome.raised now = (none, db)) ∧
    (∀ path : String, record_video db (VideoOutcome.ok path) now
      = (some path, db ++ [⟨now, VIDEO_DURATION, path⟩])) ∧
    (∀ o : VideoOutcome, (record_video db o now).2 ≠ db →
      ∃ path, o = VideoOutcome.ok path) := by
  refine ⟨rfl, fun path => rfl, fun o => ?_⟩
  cases o with
  | ok path => exact fun _ => ⟨path, rfl⟩
  | raised => exact fun hw => absurd rfl hw

/-- C5 witness: a successful recording of clip.mp4 at time 7 changed the
table, and the outcome is indeed a completed encode. -/
theorem record_video_row_iff_witness :
    ∃ path, VideoOutcome.ok "clip.mp4" = VideoOutcome.ok path :=
  (record_video_row_iff [] 7).2.2 (VideoOutcome.ok "clip.mp4") (by decide)

/-- C6: a tick of any of the three loops that observes the monitoring flag
as False returns the state and the relevant table exactly as given: no
capture result is consulted, nothing is appended, and every ActivityState
field is unchanged. -/
theorem disabled_tick_no_effect (st : ActivityState)
    (adb : List ActivityRow) (mdb : List MetricRow) (vdb : List VideoRow)
    (probe : ProbeOutcome) (shot : ShotEnv) (sample : MetricRow)
    (o : VideoOutcome) (now : Nat) :
    monitor_activities_tick false st adb probe shot now = (st, adb) ∧
    monitor_system_tick false mdb sample = mdb ∧
    monitor_videos_tick false st vdb o now = (st, vdb) :=
  ⟨rfl, rfl, rfl⟩

/-- C7: the history query returns only rows with active_session = true,
sorted newest first, at most 10 of them, and the empty table yields the
empty sequence rather than a failure. -/
theorem activity_history_spec (db : List ActivityRow) :
    ((get_activity_history db).all (fun r => r.active_session) = true) ∧
    List.Sorted newestFirst (get_activity_history db) ∧
    (get_activity_history db).length ≤ 10 ∧
    get_activity_history [] = [] := by
  refine ⟨?_, ?_, ?_, rfl⟩
  · rw [List.all_eq_true]
    intro r hr
    have h1 : r ∈ List.insertionSort newestFirst (db.filter (fun r => r.active_session)) :=
      List.mem_of_mem_take hr
    have h2 : r ∈ db.filter (fun r => r.active_session) :=
      (List.mem_insertionSort newestFirst).mp h1
    exact (List.mem_filter.mp h2).2
  · exact List.Pairwise.sublist (List.take_sublist 10 _)
      (List.sorted_insertionSort newestFirst _)
  · exact List.length_take_le 10 _

/-- C8: get_active_window is total: every probe outcome yields a string
pair, and the exception outcome yields the sentinel
("Unknown", "Unknown"). -/
theorem active_window_total (o : ProbeOutcome) :
    (∃ t p, get_active_window o = (t, p)) ∧
    (o = ProbeOutcome.failure → get_active_window o = ("Unknown", "Unknown")) := by
  refine ⟨⟨(get_active_window o).1, (get_active_window o).2, rfl⟩, fun h => ?_⟩
  subst h
  rfl

/-- C8 witness: the failure outcome maps to the sentinel pair. -/
theorem active_window_total_witness :
    get_active_window ProbeOutcome.failure = ("Unknown", "Unknown") :=
  (active_window_total ProbeOutcome.failure).2 rfl

/-- C9: when the grab/save and thumbnail steps succeed, an OCR failure or
OCR being disabled yields the empty extracted text while the artifact path
and thumbnail are still returned: OCR cannot fail the capture. -/
theorem ocr_failure_empty_text (en : Bool) (e : ShotEnv) (path b64 : String)
    (hg : e.grab_save = Except.ok path) (ht : e.thumb = Except.ok b64)
    (h : e.ocr = OcrOutcome.raised ∨ en = false) :
    capture_screenshot en e = (some path, some b64, "") := by
  rcases h with h | h
  · cases en <;> simp [capture_screenshot, hg, ht, process_ocr, h]
  · simp [capture_screenshot, hg, ht, process_ocr, h]

/-- C9 witness: a capture whose OCR raises still returns the saved path
and thumbnail with empty text. -/
theorem ocr_failure_empty_text_witness :
    capture_screenshot true ⟨Except.ok "s.jpg", OcrOutcome.raised, Except.ok "B64"⟩
      = (some "s.jpg", some "B64", "") :=
  ocr_failure_empty_text true ⟨Except.ok "s.jpg", OcrOutcome.raised, Except.ok "B64"⟩
    "s.jpg" "B64" rfl rfl (Or.inl rfl)

/-- C10: starting from an empty activities table, every row produced by
any sequence of activity-loop ticks has active_session = true (the insert
hard-codes True), so the active_session filter of the history query keeps
every engine-written row. -/
theorem engine_rows_all_active (st : ActivityState) (envs : List ActTickEnv) :
    ((monitor_activities_run st [] envs).2).all (fun r => r.active_session) = true ∧
    ((monitor_activities_run st [] envs).2).filter (fun r => r.active_session)
      = (monitor_activities_run st [] envs).2 := by
  have h := monitor_activities_run_all_active envs st [] rfl
  refine ⟨h, List.filter_eq_self.mpr ?_⟩
  intro a ha
  exact (List.all_eq_true.mp h) a ha

end Arcmonitor
